import Mathlib

/-!
Verification development for the AnimateDiff Gradio demo (`app.py`).

The file gives a shallow embedding of the `AnimateController` class:
its mutable state, the two swap operations `update_base_model` and
`update_motion_module`, the directory refresh operations
`refresh_motion_module` / `refresh_personalized_model`, the constructor
`__init__`, and the generation entry point `animate`.  Disk contents and
the key-space translators from `animatediff.utils.convert_from_ckpt`
(repository code that `app.py` imports) are abstracted into an
environment record, so theorems quantify over every possible checkpoint
content and translator behaviour.
-/

/-- A PyTorch state dict: an ordered association of tensor keys to tensor
values.  Tensor contents are abstracted to `Nat` identifiers; only the key
structure and value identity matter for the properties proved below. -/
abbrev StateDict := List (String × Nat)

/-- The list of keys of a state dict, in order. -/
def sdKeys (sd : StateDict) : List String := sd.map Prod.fst

/-- Models the weight-copy phase of `torch.nn.Module.load_state_dict`
(external library): every parameter of the module whose key occurs in the
incoming state dict receives the incoming value; every other parameter
keeps its prior value. -/
def loadCopy (params sd : StateDict) : StateDict :=
  params.map (fun kv => (kv.1, (sd.lookup kv.1).getD kv.2))

/-- Models the `missing_keys` component returned by `load_state_dict`:
module parameter keys that have no entry in the incoming state dict. -/
def missingKeys (params sd : StateDict) : List String :=
  (params.map Prod.fst).filter (fun k => (sd.lookup k).isNone)

/-- Models the `unexpected_keys` component returned by `load_state_dict`:
incoming keys that correspond to no module parameter. -/
def unexpectedKeys (params sd : StateDict) : List String :=
  (sd.map Prod.fst).filter (fun k => (params.lookup k).isNone)

/-- Python-level failures that `app.py` can raise. -/
inductive PyError where
  | indexError
  | fileNotFound (path : String)
  | strictLoadError
  | assertionError
deriving DecidableEq, Repr

/-- Observable side effects of a swap operation: a read of a checkpoint
file from disk, or an in-place mutation of one of the three modules. -/
inductive Event where
  | diskRead (name : String)
  | weightMutation (moduleName : String)
deriving DecidableEq, Repr

/-- The environment of the controller: the contents of the checkpoint
directories on disk, and the three key-space translators.

Modelled from the spec: the translators
`convert_ldm_vae_checkpoint`, `convert_ldm_unet_checkpoint` and
`convert_ldm_clip_checkpoint` live in
`animatediff/utils/convert_from_ckpt.py`, which `app.py` imports; the
spec describes them as deterministic, purely structural key renamings.
They are kept fully abstract here, so every theorem below holds for every
translator.  `convert_ldm_clip_checkpoint` returns the parameters of the
freshly constructed text-encoder module, mirroring the source where that
function builds and returns a new `CLIPTextModel`. -/
structure Env where
  safetensorsFile : String → Option StateDict
  ckptFile : String → Option StateDict
  convert_ldm_vae_checkpoint : StateDict → StateDict
  convert_ldm_unet_checkpoint : StateDict → StateDict
  convert_ldm_clip_checkpoint : StateDict → StateDict

/-- The mutable state of `AnimateController`: the three in-memory modules
(as their parameter state dicts), the two discovery lists, and the two
"currently selected" bookkeeping fields (`None` before the first swap). -/
structure Controller where
  vae : StateDict
  text_encoder : StateDict
  unet : StateDict
  base_model_list : List String
  motion_module_list : List String
  selected_base_model : Option String
  selected_motion_module : Option String
deriving DecidableEq, Repr

/-- Result of running a swap method: the controller state after all the
mutations that happened before returning or raising, the trace of disk
reads and weight mutations performed, and the error raised (if any). -/
structure SwapResult where
  state : Controller
  trace : List Event
  error : Option PyError
deriving DecidableEq, Repr

/-- `AnimateController.update_base_model` (app.py lines 75-90), step by
step: (1) set `selected_base_model` to the new record; (2) read the
safetensors checkpoint from disk (raises if absent); (3) translate for the
autoencoder and apply a STRICT load to the vae (`load_state_dict` with the
default `strict=True` copies matching keys, then raises if any key is
missing or unexpected); (4) translate for the denoiser and apply a
non-strict load to the unet; (5) replace `text_encoder` by the module
returned by `convert_ldm_clip_checkpoint`. -/
def update_base_model (env : Env) (c : Controller) (base_model_dropdown : String) :
    SwapResult :=
  let c1 := { c with selected_base_model := some base_model_dropdown }
  match env.safetensorsFile base_model_dropdown with
  | none =>
      ⟨c1, [Event.diskRead base_model_dropdown],
        some (PyError.fileNotFound base_model_dropdown)⟩
  | some base_model_state_dict =>
      let converted_vae_checkpoint :=
        env.convert_ldm_vae_checkpoint base_model_state_dict
      let c2 := { c1 with vae := loadCopy c1.vae converted_vae_checkpoint }
      if missingKeys c1.vae converted_vae_checkpoint ≠ [] ∨
          unexpectedKeys c1.vae converted_vae_checkpoint ≠ [] then
        ⟨c2, [Event.diskRead base_model_dropdown, Event.weightMutation "vae"],
          some PyError.strictLoadError⟩
      else
        let converted_unet_checkpoint :=
          env.convert_ldm_unet_checkpoint base_model_state_dict
        let c3 := { c2 with unet := loadCopy c2.unet converted_unet_checkpoint }
        let c4 := { c3 with
          text_encoder := env.convert_ldm_clip_checkpoint base_model_state_dict }
        ⟨c4, [Event.diskRead base_model_dropdown, Event.weightMutation "vae",
              Event.weightMutation "unet", Event.weightMutation "text_encoder"],
          none⟩

/-- `AnimateController.update_motion_module` (app.py lines 92-99), step by
step: (1) set `selected_motion_module` to the new record; (2) `torch.load`
the checkpoint (raises if absent); (3) apply a non-strict load to the unet,
collecting the unexpected keys; (4) `assert len(unexpected) == 0`. -/
def update_motion_module (env : Env) (c : Controller) (motion_module_dropdown : String) :
    SwapResult :=
  let c1 := { c with selected_motion_module := some motion_module_dropdown }
  match env.ckptFile motion_module_dropdown with
  | none =>
      ⟨c1, [Event.diskRead motion_module_dropdown],
        some (PyError.fileNotFound motion_module_dropdown)⟩
  | some motion_module_state_dict =>
      let c2 := { c1 with unet := loadCopy c1.unet motion_module_state_dict }
      if unexpectedKeys c1.unet motion_module_state_dict = [] then
        ⟨c2, [Event.diskRead motion_module_dropdown, Event.weightMutation "unet"],
          none⟩
      else
        ⟨c2, [Event.diskRead motion_module_dropdown, Event.weightMutation "unet"],
          some PyError.assertionError⟩

/-- Directory listings visible to the controller: `none` models an absent
directory, `some names` a directory whose entries have the given base
names. -/
structure Fs where
  motion_module_dir : Option (List String)
  personalized_model_dir : Option (List String)
deriving DecidableEq, Repr

/-- Models `glob.glob(os.path.join(dir, "*" + ext))` followed by
`os.path.basename` (external library): the base names of the entries of
the directory whose name ends with `ext`; the empty list when the
directory is absent (glob raises no error there).  The suffix test is on
the character lists of the names. -/
def globMatch (listing : Option (List String)) (ext : String) : List String :=
  (listing.getD []).filter (fun name => ext.data.isSuffixOf name.data)

/-- `AnimateController.refresh_motion_module` (app.py lines 66-68):
re-scan of the motion-module directory for `*.ckpt` entries. -/
def refresh_motion_module (fs : Fs) (c : Controller) : Controller :=
  { c with motion_module_list := globMatch fs.motion_module_dir ".ckpt" }

/-- `AnimateController.refresh_personalized_model` (app.py lines 70-72):
re-scan of the DreamBooth/LoRA directory for `*.safetensors` entries. -/
def refresh_personalized_model (fs : Fs) (c : Controller) : Controller :=
  { c with base_model_list := globMatch fs.personalized_model_dir ".safetensors" }

/-- The controller state right after the field initializers of `__init__`
(app.py lines 45-49) and the pretrained-module loads (lines 57-60), whose
results are the three parameters. -/
def freshController (vae0 text0 unet0 : StateDict) : Controller :=
  { vae := vae0, text_encoder := text0, unet := unet0,
    base_model_list := [], motion_module_list := [],
    selected_base_model := none, selected_motion_module := none }

/-- `AnimateController.__init__` (app.py lines 35-63): refresh both
discovery lists, then `update_base_model(self.base_model_list[0])` and
`update_motion_module(self.motion_module_list[0])`.  Indexing an empty
list raises `IndexError`; any error from the swaps propagates. -/
def initController (env : Env) (fs : Fs) (vae0 text0 unet0 : StateDict) :
    Except PyError Controller :=
  let c1 := refresh_personalized_model fs
    (refresh_motion_module fs (freshController vae0 text0 unet0))
  match c1.base_model_list with
  | [] => Except.error PyError.indexError
  | b :: _ =>
      match (update_base_model env c1 b).error with
      | some e => Except.error e
      | none =>
          match (update_base_model env c1 b).state.motion_module_list with
          | [] => Except.error PyError.indexError
          | m :: _ =>
              match (update_motion_module env (update_base_model env c1 b).state m).error with
              | some e => Except.error e
              | none => Except.ok (update_motion_module env (update_base_model env c1 b).state m).state

/-- The state-reconciliation prefix of `animate` (app.py lines 112-113):
swap the base model if the request differs from the current selection,
then likewise for the motion module; an error from either swap aborts. -/
def reconcile (env : Env) (c : Controller) (base_model_dropdown motion_module_dropdown : String) :
    SwapResult :=
  let r1 := if c.selected_base_model ≠ some base_model_dropdown
    then update_base_model env c base_model_dropdown
    else ⟨c, [], none⟩
  match r1.error with
  | some e => ⟨r1.state, r1.trace, some e⟩
  | none =>
      let r2 := if r1.state.selected_motion_module ≠ some motion_module_dropdown
        then update_motion_module env r1.state motion_module_dropdown
        else ⟨r1.state, [], none⟩
      ⟨r2.state, r1.trace ++ r2.trace, r2.error⟩

/-- Models the seed resolution of `animate` (app.py lines 122-124):
`if int(seed_textbox) > 0: torch.manual_seed(int(seed_textbox) & ((1<<63)-1))`
`else: torch.seed()`, then `seed = torch.initial_seed()`.  The parameter
`entropy` models the nondeterministic value drawn by `torch.seed()`. -/
def resolveSeed (seed_textbox : Int) (entropy : Nat) : Nat :=
  if seed_textbox > 0 then seed_textbox.toNat &&& (2 ^ 63 - 1) else entropy

/-- The argument record of the sampling-pipeline call of `animate`
(app.py lines 126-134).  `guidance_scale` is the float `8.`, an exact
small integer, modelled as the number 8. -/
structure PipelineCall where
  prompt : String
  negative_prompt : String
  num_inference_steps : Nat
  guidance_scale : Nat
  width : Nat
  height : Nat
  video_length : Nat
deriving DecidableEq, Repr

/-- The metadata record returned by `animate` (app.py lines 139-147). -/
structure JsonConfig where
  prompt : String
  n_prompt : String
  width : Nat
  height : Nat
  seed : Nat
  base_model : String
  motion_module : String
deriving DecidableEq, Repr

/-- Full outcome of a call of `animate`: the controller state and effect
trace after the reconciliation prefix, the error raised (if any), and —
on success — the pipeline call made and the metadata record returned. -/
structure AnimateResult where
  state : Controller
  trace : List Event
  error : Option PyError
  pipelineCall : Option PipelineCall
  json_config : Option JsonConfig
deriving DecidableEq, Repr

/-- `AnimateController.animate` (app.py lines 102-148): reconcile the
model state against the requested records, resolve the seed, run the
pipeline with `num_inference_steps=25`, `guidance_scale=8.`,
`video_length=16` and the request's prompt, negative prompt, width,
height, and return the metadata record. -/
def animate (env : Env) (entropy : Nat) (c : Controller)
    (base_model_dropdown motion_module_dropdown : String)
    (prompt_textbox negative_prompt_textbox : String)
    (width_slider height_slider : Nat) (seed_textbox : Int) : AnimateResult :=
  match reconcile env c base_model_dropdown motion_module_dropdown with
  | ⟨st, tr, some e⟩ => ⟨st, tr, some e, none, none⟩
  | ⟨st, tr, none⟩ =>
      ⟨st, tr, none,
        some ⟨prompt_textbox, negative_prompt_textbox, 25, 8,
              width_slider, height_slider, 16⟩,
        some ⟨prompt_textbox, negative_prompt_textbox, width_slider, height_slider,
              resolveSeed seed_textbox entropy,
              base_model_dropdown, motion_module_dropdown⟩⟩

/-- Environment with no checkpoint files on disk and identity translators. -/
def envNoFiles : Env := ⟨fun _ => none, fun _ => none, id, id, id⟩

/-- Environment whose motion-module checkpoint holds a key the denoiser
does not recognize. -/
def envBogusMM : Env := ⟨fun _ => none, fun _ => some [("bogus", 6)], id, id, id⟩

/-- Environment whose motion-module checkpoint holds only a key the
denoiser recognizes. -/
def envGoodMM : Env := ⟨fun _ => none, fun _ => some [("temporal", 9)], id, id, id⟩

/-- Environment whose base checkpoint translates to an empty autoencoder
state dict, so the strict vae load sees missing keys. -/
def envVaeMiss : Env :=
  ⟨fun _ => some [("a", 1)], fun _ => none, fun _ => [], id, fun _ => []⟩

/-- Environment whose base checkpoint translates to exactly the
autoencoder key space but whose text-encoder conversion builds a module
with no parameters. -/
def envVaeExact : Env :=
  ⟨fun _ => some [("a", 1)], fun _ => none, fun _ => [("v", 1)], id, fun _ => []⟩

/-- Environment on which a base-model swap and a following motion-module
swap both succeed for the controller `cBase` below. -/
def envBothOk : Env :=
  ⟨fun _ => some [("a", 1)], fun _ => some [("u", 5)],
   fun _ => [("v", 1)], id, fun _ => [("t", 1)]⟩

/-- Controller with a base model and a motion module already selected and
no module parameters; the swap guards of `animate` then skip both swaps. -/
def cSel : Controller := ⟨[], [], [], ["b"], ["m"], some "b", some "m"⟩

/-- Controller with one spatial and one temporal denoiser weight and a
motion module already selected. -/
def cMM : Controller :=
  ⟨[], [], [("spatial", 1), ("temporal", 2)], [], ["old.ckpt", "new.ckpt"],
   none, some "old.ckpt"⟩

/-- Controller with one parameter in each module and a base model already
selected. -/
def cBase : Controller :=
  ⟨[("v", 0)], [("t", 0)], [("u", 0)], ["old.safetensors"], [],
   some "old.safetensors", none⟩

/-- A key with no entry in the incoming state dict keeps its prior value
under the non-strict weight copy. -/
theorem loadCopy_lookup_of_none (params sd : StateDict) (k : String)
    (h : sd.lookup k = none) :
    (loadCopy params sd).lookup k = params.lookup k := by
  induction params with
  | nil => rfl
  | cons kv t ih =>
    simp only [loadCopy, List.map_cons, List.lookup] at ih ⊢
    rcases hbeq : k == kv.1 with _ | _
    · exact ih
    · have hk : k = kv.1 := by simpa using hbeq
      subst hk
      simp [h]

/-- If every incoming key is a parameter key, no key is unexpected. -/
theorem unexpectedKeys_eq_nil (params sd : StateDict)
    (h : ∀ k ∈ sdKeys sd, (params.lookup k).isSome) :
    unexpectedKeys params sd = [] := by
  unfold unexpectedKeys
  rw [List.filter_eq_nil_iff]
  intro k hk
  have hs := h k hk
  simp only [Option.isNone_iff_eq_none]
  intro hnone
  rw [hnone] at hs
  simp at hs

/-- `update_base_model` always records the requested base model as the
current selection, whatever else happens. -/
theorem update_base_model_sets_selection (env : Env) (c : Controller) (b : String) :
    (update_base_model env c b).state.selected_base_model = some b := by
  unfold update_base_model
  cases env.safetensorsFile b
  · rfl
  · dsimp only
    split
    · rfl
    · rfl

/-- `update_base_model` never changes the motion-module discovery list. -/
theorem update_base_model_keeps_motion_list (env : Env) (c : Controller) (b : String) :
    (update_base_model env c b).state.motion_module_list = c.motion_module_list := by
  unfold update_base_model
  cases env.safetensorsFile b
  · rfl
  · dsimp only
    split
    · rfl
    · rfl

/-- `update_base_model` never changes the selected motion module. -/
theorem update_base_model_keeps_selected_mm (env : Env) (c : Controller) (b : String) :
    (update_base_model env c b).state.selected_motion_module = c.selected_motion_module := by
  unfold update_base_model
  cases env.safetensorsFile b
  · rfl
  · dsimp only
    split
    · rfl
    · rfl

/-- `update_motion_module` always records the requested motion module as
the current selection, whatever else happens. -/
theorem update_motion_module_sets_selection (env : Env) (c : Controller) (m : String) :
    (update_motion_module env c m).state.selected_motion_module = some m := by
  unfold update_motion_module
  cases env.ckptFile m
  · rfl
  · dsimp only
    split
    · rfl
    · rfl

/-- `update_motion_module` never changes the selected base model. -/
theorem update_motion_module_keeps_selected_bm (env : Env) (c : Controller) (m : String) :
    (update_motion_module env c m).state.selected_base_model = c.selected_base_model := by
  unfold update_motion_module
  cases env.ckptFile m
  · rfl
  · dsimp only
    split
    · rfl
    · rfl

/-- C1 (amended): when the raw motion-module checkpoint contains a tensor
key not in the denoiser's key space, `update_motion_module` aborts with
the fatal assertion error — but only AFTER the currently-selected
motion-module field has been committed to the new record (the commit is
the first statement of the method), and after the non-strict load has
already been applied. -/
theorem motionSwap_unexpected_aborts_after_commit
    (env : Env) (c : Controller) (m : String) (sd : StateDict)
    (hread : env.ckptFile m = some sd)
    (hbad : unexpectedKeys c.unet sd ≠ []) :
    (update_motion_module env c m).error = some PyError.assertionError ∧
    (update_motion_module env c m).state.selected_motion_module = some m := by
  unfold update_motion_module
  rw [hread]
  dsimp only
  rw [if_neg hbad]
  exact ⟨rfl, rfl⟩

/-- C1 witness for `motionSwap_unexpected_aborts_after_commit` at a
concrete unrecognized-key checkpoint. -/
theorem motionSwap_unexpected_aborts_after_commit_witness :
    (update_motion_module envBogusMM cMM "new.ckpt").error = some PyError.assertionError ∧
    (update_motion_module envBogusMM cMM "new.ckpt").state.selected_motion_module = some "new.ckpt" :=
  motionSwap_unexpected_aborts_after_commit envBogusMM cMM "new.ckpt" [("bogus", 6)]
    (by decide) (by decide)

/-- C1 counterexample: with an unrecognized key in the checkpoint, the
swap does abort (assertion error), but the currently-selected field has
already been overwritten from the old record to the new one at the moment
of abort — refuting "aborts before the field is committed". -/
theorem motionSwap_commits_before_abort_counterexample :
    cMM.selected_motion_module = some "old.ckpt" ∧
    (update_motion_module envBogusMM cMM "new.ckpt").error = some PyError.assertionError ∧
    (update_motion_module envBogusMM cMM "new.ckpt").state.selected_motion_module ≠ some "old.ckpt" := by
  decide

/-- C3 (amended): `update_base_model` commits the currently-selected
base-model field FIRST, before the checkpoint is read, translated or
loaded; when the swap returns without error, the recorded identifier does
match the freshly loaded weights, but a failing swap leaves the new
identifier recorded over the prior weights. -/
theorem baseSwap_commits_selection_at_entry
    (env : Env) (c : Controller) (b : String) (sd : StateDict)
    (hread : env.safetensorsFile b = some sd) :
    (update_base_model env c b).state.selected_base_model = some b ∧
    ((update_base_model env c b).error = none →
      (update_base_model env c b).state.vae =
        loadCopy c.vae (env.convert_ldm_vae_checkpoint sd) ∧
      (update_base_model env c b).state.unet =
        loadCopy c.unet (env.convert_ldm_unet_checkpoint sd) ∧
      (update_base_model env c b).state.text_encoder =
        env.convert_ldm_clip_checkpoint sd) := by
  unfold update_base_model
  rw [hread]
  dsimp only
  split
  · refine ⟨rfl, fun hcontra => ?_⟩
    simp at hcontra
  · exact ⟨rfl, fun _ => ⟨rfl, rfl, rfl⟩⟩

/-- C3 witness for `baseSwap_commits_selection_at_entry` at a concrete
successful swap. -/
theorem baseSwap_commits_selection_at_entry_witness :
    (update_base_model envVaeExact cBase "new.safetensors").state.selected_base_model =
      some "new.safetensors" ∧
    (update_base_model envVaeExact cBase "new.safetensors").state.text_encoder =
      envVaeExact.convert_ldm_clip_checkpoint [("a", 1)] :=
  ⟨(baseSwap_commits_selection_at_entry envVaeExact cBase "new.safetensors" [("a", 1)]
      (by decide)).1,
   ((baseSwap_commits_selection_at_entry envVaeExact cBase "new.safetensors" [("a", 1)]
      (by decide)).2 (by decide)).2.2⟩

/-- C3 counterexample: a swap whose checkpoint file is absent raises after
the currently-selected field was already overwritten, so control returns
(by exception) with the new identifier recorded while all three modules
still hold the old weights — refuting "the field is updated only after
the checkpoint has been read, translated and loaded". -/
theorem baseSwap_selection_updated_before_load_counterexample :
    cBase.selected_base_model = some "old.safetensors" ∧
    (update_base_model envNoFiles cBase "new.safetensors").error =
      some (PyError.fileNotFound "new.safetensors") ∧
    (update_base_model envNoFiles cBase "new.safetensors").state.selected_base_model =
      some "new.safetensors" ∧
    (update_base_model envNoFiles cBase "new.safetensors").state.vae = cBase.vae ∧
    (update_base_model envNoFiles cBase "new.safetensors").state.unet = cBase.unet ∧
    (update_base_model envNoFiles cBase "new.safetensors").state.text_encoder =
      cBase.text_encoder := by
  decide

/-- C4 (amended): the three modules are NOT treated alike.  The denoiser
alone gets a non-strict partial load (its keys missing from the translated
checkpoint keep their prior values); the autoencoder load is strict, so
any missing or unexpected key aborts the swap; and the text encoder is
not partially loaded at all but replaced by the module built from the
checkpoint by `convert_ldm_clip_checkpoint`. -/
theorem baseSwap_per_module_load_discipline
    (env : Env) (c : Controller) (b : String) (sd : StateDict)
    (hread : env.safetensorsFile b = some sd) :
    ((missingKeys c.vae (env.convert_ldm_vae_checkpoint sd) ≠ [] ∨
      unexpectedKeys c.vae (env.convert_ldm_vae_checkpoint sd) ≠ []) →
      (update_base_model env c b).error = some PyError.strictLoadError) ∧
    (missingKeys c.vae (env.convert_ldm_vae_checkpoint sd) = [] →
      unexpectedKeys c.vae (env.convert_ldm_vae_checkpoint sd) = [] →
      (update_base_model env c b).error = none ∧
      (∀ k, (env.convert_ldm_unet_checkpoint sd).lookup k = none →
        (update_base_model env c b).state.unet.lookup k = c.unet.lookup k) ∧
      (update_base_model env c b).state.text_encoder =
        env.convert_ldm_clip_checkpoint sd) := by
  unfold update_base_model
  rw [hread]
  dsimp only
  constructor
  · intro hbad
    rw [if_pos hbad]
  · intro hm hu
    rw [if_neg (by simp [hm, hu])]
    refine ⟨rfl, fun k hk => ?_, rfl⟩
    exact loadCopy_lookup_of_none c.unet (env.convert_ldm_unet_checkpoint sd) k hk

/-- C4 witness for `baseSwap_per_module_load_discipline`: a concrete
strict-failure case and a concrete success case. -/
theorem baseSwap_per_module_load_discipline_witness :
    (update_base_model envVaeMiss cBase "b.safetensors").error =
      some PyError.strictLoadError ∧
    (update_base_model envVaeExact cBase "b.safetensors").error = none ∧
    (update_base_model envVaeExact cBase "b.safetensors").state.unet.lookup "u" =
      cBase.unet.lookup "u" :=
  ⟨(baseSwap_per_module_load_discipline envVaeMiss cBase "b.safetensors" [("a", 1)]
      (by decide)).1 (by decide),
   ((baseSwap_per_module_load_discipline envVaeExact cBase "b.safetensors" [("a", 1)]
      (by decide)).2 (by decide) (by decide)).1,
   (((baseSwap_per_module_load_discipline envVaeExact cBase "b.safetensors" [("a", 1)]
      (by decide)).2 (by decide) (by decide)).2).1 "u" (by decide)⟩

/-- C4 counterexample: the claim fails twice over at concrete inputs.  For
the autoencoder, a translated checkpoint missing the vae key `"v"` does
not leave the prior value in place silently — the strict load raises.  For
the text encoder, a successful swap replaces the module wholesale: the key
`"t"`, absent from the converted checkpoint, does not keep its prior
value. -/
theorem baseSwap_nonstrict_everywhere_counterexample :
    missingKeys cBase.vae (envVaeMiss.convert_ldm_vae_checkpoint [("a", 1)]) = ["v"] ∧
    (update_base_model envVaeMiss cBase "b.safetensors").error =
      some PyError.strictLoadError ∧
    cBase.text_encoder.lookup "t" = some 0 ∧
    (update_base_model envVaeExact cBase "b.safetensors").error = none ∧
    (update_base_model envVaeExact cBase "b.safetensors").state.text_encoder.lookup "t" =
      none := by
  decide

/-- C8: when every key of the motion-module checkpoint is recognized by
the denoiser (zero unexpected keys), `update_motion_module` succeeds, and
every denoiser weight whose key is not in the checkpoint is left
identical to its pre-swap value. -/
theorem motionSwap_recognized_keys_succeeds_preserving_rest
    (env : Env) (c : Controller) (m : String) (sd : StateDict)
    (hread : env.ckptFile m = some sd)
    (hrec : ∀ k ∈ sdKeys sd, (c.unet.lookup k).isSome) :
    (update_motion_module env c m).error = none ∧
    ∀ k, sd.lookup k = none →
      (update_motion_module env c m).state.unet.lookup k = c.unet.lookup k := by
  have hu : unexpectedKeys c.unet sd = [] := unexpectedKeys_eq_nil c.unet sd hrec
  unfold update_motion_module
  rw [hread]
  dsimp only
  rw [if_pos hu]
  exact ⟨rfl, fun k hk => loadCopy_lookup_of_none c.unet sd k hk⟩

/-- C8 witness for `motionSwap_recognized_keys_succeeds_preserving_rest`:
a checkpoint carrying only the recognized key `"temporal"` loads without
error and leaves the spatial weight untouched. -/
theorem motionSwap_recognized_keys_witness :
    (update_motion_module envGoodMM cMM "new.ckpt").error = none ∧
    (update_motion_module envGoodMM cMM "new.ckpt").state.unet.lookup "spatial" =
      cMM.unet.lookup "spatial" :=
  ⟨(motionSwap_recognized_keys_succeeds_preserving_rest envGoodMM cMM "new.ckpt"
      [("temporal", 9)] (by decide) (by decide)).1,
   (motionSwap_recognized_keys_succeeds_preserving_rest envGoodMM cMM "new.ckpt"
      [("temporal", 9)] (by decide) (by decide)).2 "spatial" (by decide)⟩

/-- `animate` returns the state, trace and error of its reconciliation
prefix unchanged. -/
theorem animate_components (env : Env) (e : Nat) (c : Controller)
    (b m p n : String) (w h : Nat) (s : Int) :
    (animate env e c b m p n w h s).state = (reconcile env c b m).state ∧
    (animate env e c b m p n w h s).trace = (reconcile env c b m).trace ∧
    (animate env e c b m p n w h s).error = (reconcile env c b m).error := by
  unfold animate
  cases hr : reconcile env c b m with
  | mk st tr err => cases err <;> simp [hr]

/-- When both requested records already equal the current selections, the
reconciliation prefix does nothing at all. -/
theorem reconcile_eq_noop (env : Env) (c : Controller) (b m : String)
    (hb : c.selected_base_model = some b)
    (hm : c.selected_motion_module = some m) :
    reconcile env c b m = ⟨c, [], none⟩ := by
  unfold reconcile
  simp [hb, hm]

/-- When only the motion module differs from the current selection, the
reconciliation prefix is exactly the motion-module swap. -/
theorem reconcile_eq_mm_only (env : Env) (c : Controller) (b m : String)
    (hb : c.selected_base_model = some b)
    (hm : ¬ c.selected_motion_module = some m) :
    reconcile env c b m = update_motion_module env c m := by
  unfold reconcile
  simp [hb, hm]

/-- When the base model differs and its swap raises, the reconciliation
prefix propagates that error. -/
theorem reconcile_eq_base_err (env : Env) (c : Controller) (b m : String)
    (hb : ¬ c.selected_base_model = some b) (e : PyError)
    (he : (update_base_model env c b).error = some e) :
    reconcile env c b m =
      ⟨(update_base_model env c b).state, (update_base_model env c b).trace, some e⟩ := by
  unfold reconcile
  simp [hb, he]

/-- When the base model differs, its swap succeeds, and the resulting
state already has the requested motion module selected, the
reconciliation prefix is exactly the base-model swap. -/
theorem reconcile_eq_base_only (env : Env) (c : Controller) (b m : String)
    (hb : ¬ c.selected_base_model = some b)
    (he : (update_base_model env c b).error = none)
    (hm : (update_base_model env c b).state.selected_motion_module = some m) :
    reconcile env c b m = update_base_model env c b := by
  unfold reconcile
  simp [hb, he, hm]
  rw [← he]

/-- When both records differ and the base swap succeeds, the
reconciliation prefix chains the two swaps. -/
theorem reconcile_eq_both (env : Env) (c : Controller) (b m : String)
    (hb : ¬ c.selected_base_model = some b)
    (he : (update_base_model env c b).error = none)
    (hm : ¬ (update_base_model env c b).state.selected_motion_module = some m) :
    reconcile env c b m =
      ⟨(update_motion_module env (update_base_model env c b).state m).state,
       (update_base_model env c b).trace ++
         (update_motion_module env (update_base_model env c b).state m).trace,
       (update_motion_module env (update_base_model env c b).state m).error⟩ := by
  unfold reconcile
  simp [hb, he, hm]

/-- A reconciliation prefix that returns without error leaves both
requested records recorded as the current selections. -/
theorem reconcile_ok_selections (env : Env) (c : Controller) (b m : String)
    (hok : (reconcile env c b m).error = none) :
    (reconcile env c b m).state.selected_base_model = some b ∧
    (reconcile env c b m).state.selected_motion_module = some m := by
  by_cases hb : c.selected_base_model = some b
  · by_cases hm : c.selected_motion_module = some m
    · rw [reconcile_eq_noop env c b m hb hm]
      exact ⟨hb, hm⟩
    · rw [reconcile_eq_mm_only env c b m hb hm]
      refine ⟨?_, update_motion_module_sets_selection env c m⟩
      rw [update_motion_module_keeps_selected_bm]
      exact hb
  · cases he : (update_base_model env c b).error with
    | some e =>
        rw [reconcile_eq_base_err env c b m hb e he] at hok
        simp at hok
    | none =>
        by_cases hm : (update_base_model env c b).state.selected_motion_module = some m
        · rw [reconcile_eq_base_only env c b m hb he hm]
          exact ⟨update_base_model_sets_selection env c b, hm⟩
        · rw [reconcile_eq_both env c b m hb he hm]
          refine ⟨?_, update_motion_module_sets_selection env _ m⟩
          dsimp only
          rw [update_motion_module_keeps_selected_bm]
          exact update_base_model_sets_selection env c b

/-- C2 (amended): `update_base_model` itself contains no short-circuit —
the no-op guard lives in `animate` (lines 112-113), which skips the swap
when the requested record equals the current selection.  Consequently,
after one successful `animate` call, repeating the call with identical
records performs no disk read and no weight mutation (empty effect trace)
and leaves the whole controller state unchanged. -/
theorem animate_repeat_performs_no_io
    (env : Env) (e1 e2 : Nat) (c : Controller) (b m p n : String)
    (w h : Nat) (s : Int)
    (hok : (animate env e1 c b m p n w h s).error = none) :
    (animate env e2 (animate env e1 c b m p n w h s).state b m p n w h s).trace = [] ∧
    (animate env e2 (animate env e1 c b m p n w h s).state b m p n w h s).state =
      (animate env e1 c b m p n w h s).state := by
  have hc := animate_components env e1 c b m p n w h s
  have hok' : (reconcile env c b m).error = none := by
    rw [← hc.2.2]
    exact hok
  have hsel := reconcile_ok_selections env c b m hok'
  have hc2 := animate_components env e2
    ((animate env e1 c b m p n w h s).state) b m p n w h s
  have hnoop : reconcile env ((animate env e1 c b m p n w h s).state) b m =
      ⟨(animate env e1 c b m p n w h s).state, [], none⟩ := by
    apply reconcile_eq_noop
    · rw [hc.1]
      exact hsel.1
    · rw [hc.1]
      exact hsel.2
  constructor
  · rw [hc2.2.1, hnoop]
  · rw [hc2.1, hnoop]

/-- C2 witness for `animate_repeat_performs_no_io`: a first call that
really swaps both records, then a repeat with an empty trace. -/
theorem animate_repeat_performs_no_io_witness :
    (animate envBothOk 2 (animate envBothOk 1 cBase "new.safetensors" "mm.ckpt"
        "p" "n" 512 512 5).state "new.safetensors" "mm.ckpt" "p" "n" 512 512 5).trace = [] ∧
    (animate envBothOk 2 (animate envBothOk 1 cBase "new.safetensors" "mm.ckpt"
        "p" "n" 512 512 5).state "new.safetensors" "mm.ckpt" "p" "n" 512 512 5).state =
      (animate envBothOk 1 cBase "new.safetensors" "mm.ckpt" "p" "n" 512 512 5).state :=
  animate_repeat_performs_no_io envBothOk 1 2 cBase "new.safetensors" "mm.ckpt"
    "p" "n" 512 512 5 (by decide)

/-- C2 counterexample: calling `update_base_model` directly with the
record that is ALREADY selected still reads the checkpoint from disk and
still mutates weights — the function itself has no no-op short-circuit,
refuting the claim that `swapBaseModel(B)` with `B` already selected
performs no disk read and no weight mutation. -/
theorem baseSwap_same_record_not_noop_counterexample :
    cBase.selected_base_model = some "old.safetensors" ∧
    Event.diskRead "old.safetensors" ∈
      (update_base_model envBothOk cBase "old.safetensors").trace ∧
    Event.weightMutation "vae" ∈
      (update_base_model envBothOk cBase "old.safetensors").trace ∧
    (update_base_model envBothOk cBase "old.safetensors").state.vae ≠ cBase.vae := by
  decide

/-- C5 (amended): for a request whose seed parses to a positive integer S,
the resolved seed recorded in the metadata is S masked to 63 bits,
`S &&& (2^63 - 1)`, i.e. S mod 2^63 — equal to S itself exactly when
S < 2^63 — and the whole `animate` result is independent of the entropy
source, so two consecutive calls with identical parameters record
identical resolved-seed metadata. -/
theorem animate_positive_seed_masked_deterministic
    (env : Env) (e1 e2 : Nat) (c : Controller) (b m p n : String)
    (w h : Nat) (s : Int) (hs : 0 < s) :
    animate env e1 c b m p n w h s = animate env e2 c b m p n w h s ∧
    ∀ cfg, (animate env e1 c b m p n w h s).json_config = some cfg →
      cfg.seed = s.toNat % 2 ^ 63 ∧ (s < 2 ^ 63 → cfg.seed = s.toNat) := by
  have hseed : resolveSeed s e1 = resolveSeed s e2 := by
    simp [resolveSeed, hs]
  have hval : resolveSeed s e1 = s.toNat % 2 ^ 63 := by
    unfold resolveSeed
    rw [if_pos hs, Nat.and_pow_two_sub_one_eq_mod]
  constructor
  · unfold animate
    cases hr : reconcile env c b m with
    | mk st tr err => cases err <;> simp [hseed]
  · intro cfg hcfg
    have hcs : cfg.seed = resolveSeed s e1 := by
      unfold animate at hcfg
      cases hr : reconcile env c b m with
      | mk st tr err =>
          rw [hr] at hcfg
          cases err
          · simp only [Option.some.injEq] at hcfg
            rw [← hcfg]
          · simp at hcfg
    refine ⟨by rw [hcs, hval], fun hlt => ?_⟩
    rw [hcs, hval]
    have h63 : (2 : Int) ^ 63 = 9223372036854775808 := by norm_num
    have hn : s.toNat < 2 ^ 63 := by
      have h63n : (2 : Nat) ^ 63 = 9223372036854775808 := by norm_num
      rw [h63] at hlt
      rw [h63n]
      omega
    exact Nat.mod_eq_of_lt hn

/-- C5 witness for `animate_positive_seed_masked_deterministic` at the
concrete positive seed 5. -/
theorem animate_positive_seed_witness :
    animate envNoFiles 1 cSel "b" "m" "p" "n" 512 512 5 =
      animate envNoFiles 2 cSel "b" "m" "p" "n" 512 512 5 ∧
    (⟨"p", "n", 512, 512, 5, "b", "m"⟩ : JsonConfig).seed = (5 : Int).toNat % 2 ^ 63 :=
  ⟨(animate_positive_seed_masked_deterministic envNoFiles 1 2 cSel "b" "m" "p" "n"
      512 512 5 (by decide)).1,
   ((animate_positive_seed_masked_deterministic envNoFiles 1 2 cSel "b" "m" "p" "n"
      512 512 5 (by decide)).2 ⟨"p", "n", 512, 512, 5, "b", "m"⟩ (by decide)).1⟩

/-- C5 counterexample: for the positive seed S = 2^63 the resolved seed
recorded in the metadata is 0, not S itself — the source masks the seed
with `(1<<63)-1` before `torch.manual_seed`, so any S ≥ 2^63 is not
recorded verbatim. -/
theorem animate_positive_seed_not_identity_counterexample :
    (0 : Int) < 2 ^ 63 ∧
    (animate envNoFiles 7 cSel "b" "m" "p" "n" 512 512 (2 ^ 63)).json_config =
      some ⟨"p", "n", 512, 512, 0, "b", "m"⟩ ∧
    ((2 : Int) ^ 63).toNat ≠ 0 := by
  decide

/-- C7 (amended): the sampling pipeline is executed with the request's
prompt, negative prompt, width and height — but the sampler step count
(25), guidance scale (8.0) and frame count (16) are hardcoded constants
of `animate`, not fields of the generation request. -/
theorem animate_pipeline_arguments (env : Env) (e : Nat) (c : Controller)
    (b m p n : String) (w h : Nat) (s : Int) :
    ∀ pc, (animate env e c b m p n w h s).pipelineCall = some pc →
      pc = ⟨p, n, 25, 8, w, h, 16⟩ := by
  intro pc hpc
  unfold animate at hpc
  cases hr : reconcile env c b m with
  | mk st tr err =>
      rw [hr] at hpc
      cases err
      · simp only [Option.some.injEq] at hpc
        exact hpc.symm
      · simp at hpc

/-- C7 witness for `animate_pipeline_arguments` at a concrete request. -/
theorem animate_pipeline_arguments_witness :
    (⟨"p", "n", 25, 8, 512, 384, 16⟩ : PipelineCall) = ⟨"p", "n", 25, 8, 512, 384, 16⟩ :=
  animate_pipeline_arguments envNoFiles 1 cSel "b" "m" "p" "n" 512 384 5
    ⟨"p", "n", 25, 8, 512, 384, 16⟩ (by decide)

/-- C7 counterexample: across two requests that differ in every field,
the pipeline is invoked with the same step count 25, guidance scale 8 and
frame count 16 — these values are constants of the code, not taken from
the generation request (whose surface has no such fields at all). -/
theorem animate_pipeline_constants_counterexample :
    (animate envNoFiles 1 cSel "b" "m" "p1" "n1" 256 320 5).pipelineCall =
      some ⟨"p1", "n1", 25, 8, 256, 320, 16⟩ ∧
    (animate envNoFiles 2 cSel "b" "m" "p2" "n2" 512 448 9).pipelineCall =
      some ⟨"p2", "n2", 25, 8, 512, 448, 16⟩ := by
  decide

/-- C9: the refresh operations return an empty listing, rather than
raising, when the scanned directory is absent; and each call re-scans the
directory afresh — the result after two successive refreshes over
different filesystem states is exactly the result of scanning the second
state, independent of any previous controller state. -/
theorem refresh_absent_dir_empty_and_rescans
    (fs fs1 fs2 : Fs) (c c1 c2 : Controller)
    (hmm : fs.motion_module_dir = none)
    (hbm : fs.personalized_model_dir = none) :
    (refresh_motion_module fs c).motion_module_list = [] ∧
    (refresh_personalized_model fs c).base_model_list = [] ∧
    (refresh_motion_module fs2 (refresh_motion_module fs1 c1)).motion_module_list =
      (refresh_motion_module fs2 c2).motion_module_list ∧
    (refresh_personalized_model fs2 (refresh_personalized_model fs1 c1)).base_model_list =
      (refresh_personalized_model fs2 c2).base_model_list := by
  refine ⟨?_, ?_, rfl, rfl⟩ <;>
    simp [refresh_motion_module, refresh_personalized_model, globMatch, hmm, hbm]

/-- C9 witness for `refresh_absent_dir_empty_and_rescans` on a concrete
absent filesystem and two concrete changed filesystems. -/
theorem refresh_absent_dir_witness :
    (refresh_motion_module ⟨none, none⟩ cSel).motion_module_list = [] ∧
    (refresh_personalized_model ⟨none, none⟩ cSel).base_model_list = [] ∧
    (refresh_motion_module ⟨some ["z.ckpt"], none⟩
        (refresh_motion_module ⟨some ["x.ckpt"], some ["y.safetensors"]⟩ cBase)).motion_module_list =
      (refresh_motion_module ⟨some ["z.ckpt"], none⟩ cMM).motion_module_list ∧
    (refresh_personalized_model ⟨some ["z.ckpt"], none⟩
        (refresh_personalized_model ⟨some ["x.ckpt"], some ["y.safetensors"]⟩ cBase)).base_model_list =
      (refresh_personalized_model ⟨some ["z.ckpt"], none⟩ cMM).base_model_list :=
  refresh_absent_dir_empty_and_rescans ⟨none, none⟩
    ⟨some ["x.ckpt"], some ["y.safetensors"]⟩ ⟨some ["z.ckpt"], none⟩
    cSel cBase cMM (by decide) (by decide)

/-- C10: constructing the controller requires at least one base-model
checkpoint and at least one motion-module checkpoint: `__init__` indexes
the first element of both discovered lists unconditionally, so with no
`.safetensors` entry construction fails with `IndexError`; with no
`.ckpt` entry construction always fails, and fails with `IndexError`
whenever the base-model swap itself did not already raise. -/
theorem initRequiresNonemptyDiscovery (env : Env) (fs : Fs) (v t u : StateDict) :
    (globMatch fs.personalized_model_dir ".safetensors" = [] →
      initController env fs v t u = Except.error PyError.indexError) ∧
    (globMatch fs.motion_module_dir ".ckpt" = [] →
      ∃ e, initController env fs v t u = Except.error e) ∧
    (globMatch fs.motion_module_dir ".ckpt" = [] →
      ∀ b bs, globMatch fs.personalized_model_dir ".safetensors" = b :: bs →
      (update_base_model env (refresh_personalized_model fs
        (refresh_motion_module fs (freshController v t u))) b).error = none →
      initController env fs v t u = Except.error PyError.indexError) := by
  refine ⟨?_, ?_, ?_⟩
  · intro hb
    unfold initController
    dsimp only [refresh_personalized_model, refresh_motion_module, freshController]
    rw [hb]
  · intro hm
    unfold initController
    dsimp only [refresh_personalized_model, refresh_motion_module, freshController]
    cases hb : globMatch fs.personalized_model_dir ".safetensors" with
    | nil => exact ⟨PyError.indexError, rfl⟩
    | cons b bs =>
        cases he : (update_base_model env
            ⟨v, t, u, globMatch fs.personalized_model_dir ".safetensors",
             globMatch fs.motion_module_dir ".ckpt", none, none⟩ b).error with
        | some e =>
            refine ⟨e, ?_⟩
            rw [hb] at he
            dsimp only
            rw [he]
        | none =>
            refine ⟨PyError.indexError, ?_⟩
            rw [hb] at he
            dsimp only
            rw [he]
            dsimp only
            rw [update_base_model_keeps_motion_list]
            dsimp only
            rw [hm]
  · intro hm b bs hb he
    unfold initController
    dsimp only [refresh_personalized_model, refresh_motion_module, freshController] at he ⊢
    rw [hb] at he ⊢
    dsimp only
    rw [he]
    dsimp only
    rw [update_base_model_keeps_motion_list]
    dsimp only
    rw [hm]

/-- C10 witness for `initRequiresNonemptyDiscovery`: with both scanned
directories absent, construction fails with `IndexError`. -/
theorem initRequiresNonemptyDiscovery_witness :
    initController envNoFiles ⟨none, none⟩ [] [] [] = Except.error PyError.indexError :=
  (initRequiresNonemptyDiscovery envNoFiles ⟨none, none⟩ [] [] []).1 (by decide)
